import Mathlib

/-!
Verification development for the SolVPN subscription-lifecycle bot.

Shallow embedding of the orchestrator core: the per-user conversation
handlers of `src/main.py`, the store operations of `src/database.py`
(SQLite variants), the key helpers of `src/outline_utils.py` and the
scheduler tasks of `src/scheduler_tasks.py`.  External collaborators
(payment provider, Outline servers, Telegram transport) are modelled as
explicit environment parameters; UI text is abstracted to message tags.
Timestamps are modelled as integer seconds; the wall-clock values read
by `time.time()` in the rate limiter are modelled as rationals.
-/

namespace SolVPN

/-! ## Configuration (`src/config.py`) -/

/-- One entry of `DURATION_PLANS` in `config.py`. -/
structure DurationPlan where
  name : String
  duration_days : Nat
  price_usdt : ℚ
  price_rub : ℚ
deriving DecidableEq

/-- `DURATION_PLANS` from `config.py` (lines 61-80). -/
def DURATION_PLANS : List (String × DurationPlan) :=
  [("1_month", ⟨"Подписка на 1 месяц", 30, 2, 159⟩),
   ("3_months", ⟨"Подписка на 3 месяца", 90, 6, 450⟩),
   ("12_months", ⟨"Подписка на 12 месяцев", 365, 23, 1850⟩)]

/-- One entry of `COUNTRY_PACKAGES` in `config.py`. -/
structure CountryPackage where
  name : String
  description : String
  countries : List String
deriving DecidableEq

/-- `COUNTRY_PACKAGES` from `config.py` (lines 83-94). -/
def COUNTRY_PACKAGES : List (String × CountryPackage) :=
  [("standard", ⟨"Стандартный пакет", "Доступ к серверам в Германии и Амстердаме",
      ["germany", "amsterdam"]⟩),
   ("extended", ⟨"Расширенный пакет", "Доступ к серверам в Германии и Амстердаме",
      ["germany", "amsterdam"]⟩)]

/-- Whether the first character list is a prefix of the second. -/
def charsPrefix : List Char → List Char → Bool
  | [], _ => true
  | _ :: _, [] => false
  | a :: as, b :: bs => a == b && charsPrefix as bs

/-- Python `s.startswith(pre)` (character-level, kernel-reducible). -/
def pyStartsWith (s pre : String) : Bool := charsPrefix pre.toList s.toList

/-- Dropping the first `n` characters of a string (Python `s[n:]`). -/
def pyDrop (s : String) (n : Nat) : String := String.mk (s.toList.drop n)

/-- Python `s.split(sep)` for a one-character separator: accumulator-based
splitter over the character list. -/
def splitCharsAux (sep : Char) : List Char → List Char → List (List Char)
  | [], acc => [acc.reverse]
  | c :: cs, acc =>
      if c == sep then acc.reverse :: splitCharsAux sep cs []
      else splitCharsAux sep cs (c :: acc)

/-- Python `s.split(',')`. -/
def pySplitComma (s : String) : List String := (splitCharsAux ',' s.toList []).map String.mk

/-- Python `dict[key]` lookup over an insertion-ordered association list. -/
def alistLookup {α : Type} (l : List (String × α)) (k : String) : Option α :=
  (l.find? (fun p => p.1 == k)).map Prod.snd

/-- Python `dict[key] = value`: replace in place, else append at the end. -/
def alistSet {α : Type} : List (String × α) → String → α → List (String × α)
  | [], k, v => [(k, v)]
  | (k0, v0) :: t, k, v =>
      if k0 == k then (k, v) :: t else (k0, v0) :: alistSet t k v

/-- `DURATION_PLANS[plan_id]`, as an `Option` (a missing key raises `KeyError`). -/
def lookupPlan (plan_id : String) : Option DurationPlan := alistLookup DURATION_PLANS plan_id

/-- `COUNTRY_PACKAGES[package_id]`, as an `Option`. -/
def lookupPackage (package_id : String) : Option CountryPackage :=
  alistLookup COUNTRY_PACKAGES package_id

/-- `COMMAND_RATE_LIMIT = {"default": 3, "subscribe": 10}` (`config.py` line 139). -/
def COMMAND_RATE_LIMIT : List (String × ℚ) := [("default", 3), ("subscribe", 10)]

/-- `CALLBACK_RATE_LIMIT = 2` (`config.py` line 140). -/
def CALLBACK_RATE_LIMIT : ℚ := 2

/-- `MESSAGE_RATE_LIMIT = 1` (`config.py` line 141). -/
def MESSAGE_RATE_LIMIT : ℚ := 1

/-! ## Rate limiter (`src/main.py`, `is_rate_limited`, lines 100-138) -/

/-- The `specific_limit_duration` computation inside `is_rate_limited`
(`main.py` lines 115-125).  `limit_type.split("_", 1)[1]` for a string that
starts with `"command_"` is the suffix after the first underscore, i.e.
`limit_type.drop 8`. -/
def intervalFor (limit_type : String) : ℚ :=
  if pyStartsWith limit_type "command_" then
    let command_name := pyDrop limit_type 8
    (alistLookup COMMAND_RATE_LIMIT command_name).getD
      ((alistLookup COMMAND_RATE_LIMIT "default").getD 3)
  else if limit_type = "callback" then CALLBACK_RATE_LIMIT
  else if limit_type = "message" then MESSAGE_RATE_LIMIT
  else (alistLookup COMMAND_RATE_LIMIT "default").getD 3

/-- `is_rate_limited` (`main.py` lines 100-138): the per-user
`last_action_times` dictionary is threaded explicitly; `True` means the
action is rate-limited (state untouched), `False` means allowed and the
current time is recorded for `limit_type`.  `last_action_times.get(lt, 0)`
is modelled by `getD 0`. -/
def is_rate_limited (last_action_times : List (String × ℚ)) (now : ℚ)
    (limit_type : String) : Bool × List (String × ℚ) :=
  let specific_limit_duration := intervalFor limit_type
  let last_time := (alistLookup last_action_times limit_type).getD 0
  if now - last_time < specific_limit_duration then
    (true, last_action_times)
  else
    (false, alistSet last_action_times limit_type now)

theorem alistLookup_alistSet {α : Type} (l : List (String × α)) (k : String) (v : α) :
    alistLookup (alistSet l k v) k = some v := by
  induction l with
  | nil => simp [alistSet, alistLookup, List.find?]
  | cons p t ih =>
    obtain ⟨k0, v0⟩ := p
    by_cases h : k0 == k
    · simp [alistSet, h, alistLookup, List.find?]
    · simpa [alistSet, h, alistLookup, List.find?] using ih

/-- Claim C4: for every actor and limit type with configured minimum
interval `I = intervalFor limit_type`, a check at time `now` with
`now - last < I` returns limited and leaves the stored state unchanged,
and otherwise records `now` and returns allowed; consequently, after a
first allowed check at `t1`, a second check at `t2` is limited exactly
when `t2 - t1 < I`, and allowed (recording `t2`) when `t2 - t1 ≥ I`. -/
theorem rate_limiter_cooldown (last_action_times : List (String × ℚ))
    (limit_type : String) (t1 t2 : ℚ)
    (hfirst : intervalFor limit_type ≤
      t1 - (alistLookup last_action_times limit_type).getD 0) :
    (is_rate_limited last_action_times t1 limit_type).1 = false ∧
    (alistLookup (is_rate_limited last_action_times t1 limit_type).2 limit_type
      = some t1) ∧
    (t2 - t1 < intervalFor limit_type →
      is_rate_limited (is_rate_limited last_action_times t1 limit_type).2 t2 limit_type
        = (true, (is_rate_limited last_action_times t1 limit_type).2)) ∧
    (intervalFor limit_type ≤ t2 - t1 →
      (is_rate_limited (is_rate_limited last_action_times t1 limit_type).2 t2 limit_type).1
          = false ∧
      alistLookup
        (is_rate_limited (is_rate_limited last_action_times t1 limit_type).2 t2 limit_type).2
        limit_type = some t2) := by
  have h1 : ¬ (t1 - (alistLookup last_action_times limit_type).getD 0
      < intervalFor limit_type) := not_lt.mpr hfirst
  have hstep : is_rate_limited last_action_times t1 limit_type
      = (false, alistSet last_action_times limit_type t1) := by
    simp [is_rate_limited, h1]
  refine ⟨by rw [hstep], ?_, ?_, ?_⟩
  · rw [hstep]; exact alistLookup_alistSet _ _ _
  · intro hlt
    rw [hstep]
    simp [is_rate_limited, alistLookup_alistSet, hlt]
  · intro hge
    have h2 : ¬ (t2 - t1 < intervalFor limit_type) := not_lt.mpr hge
    rw [hstep]
    constructor
    · simp [is_rate_limited, alistLookup_alistSet, h2]
    · simp [is_rate_limited, alistLookup_alistSet, h2, alistLookup_alistSet]

/-- Witness for C4 at a concrete input: fresh state, `"callback"` limit
(interval 2), first check at time 5 (allowed), second at time 6 (limited
since 6 - 5 < 2). -/
theorem rate_limiter_cooldown_witness :
    (is_rate_limited [] 5 "callback").1 = false ∧
    is_rate_limited (is_rate_limited [] 5 "callback").2 6 "callback"
      = (true, (is_rate_limited [] 5 "callback").2) := by
  have hI : intervalFor "callback" = 2 := rfl
  have h := rate_limiter_cooldown [] "callback" 5 6
    (by rw [hI]; simp [alistLookup, List.find?]; norm_num)
  exact ⟨h.1, h.2.2.1 (by rw [hI]; norm_num)⟩

/-! ## Entitlement store (`src/database.py`, SQLite schema and operations) -/

/-- One row of the `subscriptions` table (`database.py` lines 49-61).
Timestamp columns are modelled as integer seconds. -/
structure Subscription where
  id : Nat
  user_id : Int
  duration_plan_id : String
  country_package_id : Option String
  start_date : Option Int
  end_date : Option Int
  status : String
  payment_id : Option String
deriving DecidableEq

/-- One row of the `subscription_countries` table (`database.py` lines 64-73). -/
structure SubscriptionCountry where
  subscription_id : Nat
  country_code : String
  outline_key_id : String
  outline_access_url : String
deriving DecidableEq

/-- The two mutable tables the orchestrator reads and writes. -/
structure Store where
  subscriptions : List Subscription
  subscription_countries : List SubscriptionCountry
deriving DecidableEq

/-- `get_subscription_by_id_sqlite` (`database.py` lines 284-294):
`SELECT ... WHERE id = ?` with `fetchone`. -/
def get_subscription_by_id (st : Store) (sid : Nat) : Option Subscription :=
  st.subscriptions.find? (fun s => s.id == sid)

/-- A SQL `UPDATE ... WHERE p` over the `subscriptions` table. -/
def updateSubscriptions (st : Store) (p : Subscription → Bool)
    (f : Subscription → Subscription) : Store :=
  { st with subscriptions := st.subscriptions.map (fun s => if p s then f s else s) }

/-- `mark_subscription_expired_sqlite` (`database.py` lines 245-251). -/
def mark_subscription_expired (st : Store) (sid : Nat) : Store :=
  updateSubscriptions st (fun s => s.id == sid) (fun s => { s with status := "expired" })

/-- `update_subscription_country_package_sqlite` (`database.py` lines 122-131). -/
def update_subscription_country_package (st : Store) (sid : Nat) (pkg : String) : Store :=
  updateSubscriptions st (fun s => s.id == sid)
    (fun s => { s with country_package_id := some pkg })

/-- `add_subscription_country_sqlite` (`database.py` lines 140-148): a plain
`INSERT` appending one row. -/
def add_subscription_country (st : Store) (sid : Nat) (country key url : String) : Store :=
  { st with subscription_countries := st.subscription_countries ++ [⟨sid, country, key, url⟩] }

/-- `activate_subscription_sqlite` (`database.py` lines 157-169):
`start_date = utcnow`, `end_date = start_date + timedelta(days=duration_days)`. -/
def activate_subscription (st : Store) (sid : Nat) (duration_days : Nat)
    (pid : String) (now : Int) : Store :=
  updateSubscriptions st (fun s => s.id == sid) (fun s =>
    { s with start_date := some now,
             end_date := some (now + 86400 * (duration_days : Int)),
             status := "active", payment_id := some pid })

/-- `create_subscription_record_sqlite` (`database.py` lines 102-113): inserts a
`pending_payment` row; `newId` models the `lastrowid` assigned by SQLite. -/
def create_subscription_record (st : Store) (newId : Nat) (user_id : Int)
    (duration_plan_id : String) : Store :=
  { st with subscriptions := st.subscriptions ++
      [{ id := newId, user_id := user_id, duration_plan_id := duration_plan_id,
         country_package_id := none, start_date := none, end_date := none,
         status := "pending_payment", payment_id := none }] }

/-! ## Conversation machinery (`src/main.py`) -/

/-- `UserConversationState` (`main.py` lines 52-56). -/
inductive UserConversationState
  | CHOOSE_DURATION
  | CHOOSE_PAYMENT
  | AWAIT_PAYMENT_CONFIRMATION
  | CHOOSE_COUNTRIES
deriving DecidableEq

/-- What a handler returns to the `ConversationHandler`: a next state, `END`,
or `None` (fall-through, which leaves the current state unchanged). -/
inductive HandlerResult
  | toState (s : UserConversationState)
  | endConv
  | noChange
deriving DecidableEq

/-- Outbound user-facing messages, abstracted to tags (UI text is out of
scope); payload fields keep the data interpolated into the text. -/
inductive Msg
  | chooseDurationPrompt
  | noPaymentInfoError
  | verificationFailedRetry
  | paymentNotFoundRetry
  | paymentProcessingErrorRetry
  | renewalSuccess (new_end_date : Int)
  | renewalSubMissing
  | choosePackagePrompt
  | missingSubscriptionInfo
  | subscriptionActivated
  | activationError
  | notFoundOrNoPermission
  | renewDurationPrompt
  | expiryNoticeWithOptions (sub_id : Nat)
  | renewalReminder (sub_id : Nat)
  | finalAllDeleted
  | finalPartialDeleted (deleted total : Nat)
  | finalExpiredNone
deriving DecidableEq

/-- The per-actor `context.user_data` dictionary, with the keys the
subscription flow uses (`main.py`).  A key that was never set is `none`. -/
structure UserData where
  selected_duration : Option String := none
  payment_id : Option String := none
  payment_type : Option String := none
  renewing_sub_id : Option Nat := none
  pending_subscription_id : Option Nat := none
  last_action_times : List (String × ℚ) := []
deriving DecidableEq

/-- Python truthiness of an optional string (`None` and `""` are falsy). -/
def pyTruthyStr : Option String → Bool
  | none => false
  | some s => !(s == "")

/-- Python truthiness of an optional integer key (`None` and `0` are falsy). -/
def pyTruthyNat : Option Nat → Bool
  | none => false
  | some n => !(n == 0)

/-- The outcome of a conversation handler: resulting store, resulting
`user_data`, returned conversation-state value, and messages sent. -/
structure HandlerOut where
  store : Store
  userData : UserData
  result : HandlerResult
  messages : List Msg

/-- The payment provider's answers for the currently stored payment
reference: the status string returned by `get_payment_status` /
`get_yookassa_payment_status` (both catch their own exceptions and return
`"error"`), and the boolean returned by `verify_crypto_payment` /
`verify_yookassa_payment`. -/
structure PaymentEnv where
  status : String
  verified : Bool
deriving DecidableEq

/-- `confirm_payment` (`main.py` lines 411-543).  `freshId` models the SQLite
row id assigned if a new pending subscription is created.  Paths on which the
Python code raises inside the `try` (a `KeyError` from
`DURATION_PLANS[duration_id]`, or `fromisoformat` on a missing `end_date`)
land in the `except` handler, which sends a retry prompt and stays in
AWAIT_PAYMENT_CONFIRMATION.  When the status is neither `paid`/`succeeded`
nor `not_found`, the Python function falls off the end of the `if`/`elif`
ladder: no message is sent and `None` is returned.  The handler never reads
the wall clock; `now` is the (unused) time at which it runs. -/
def confirm_payment (env : PaymentEnv) (user_id : Int) (freshId : Nat) (now : Int)
    (ud : UserData) (st : Store) : HandlerOut :=
  if !(pyTruthyStr ud.payment_id) || !(pyTruthyStr ud.payment_type) then
    { store := st, userData := ud, result := .endConv, messages := [.noPaymentInfoError] }
  else
    if env.status == "paid" || env.status == "succeeded" then
      if env.verified then
        match ud.selected_duration.bind lookupPlan with
        | none =>
            { store := st, userData := ud, result := .toState .AWAIT_PAYMENT_CONFIRMATION,
              messages := [.paymentProcessingErrorRetry] }
        | some plan =>
          if pyTruthyNat ud.renewing_sub_id then
            let rsid := ud.renewing_sub_id.getD 0
            match get_subscription_by_id st rsid with
            | none =>
                { store := st, userData := ud, result := .endConv,
                  messages := [.renewalSubMissing] }
            | some existing_sub =>
              match existing_sub.end_date with
              | none =>
                  { store := st, userData := ud,
                    result := .toState .AWAIT_PAYMENT_CONFIRMATION,
                    messages := [.paymentProcessingErrorRetry] }
              | some current_end_date =>
                let new_end_date := current_end_date + 86400 * (plan.duration_days : Int)
                let st1 := updateSubscriptions st
                  (fun s => s.id == rsid && s.user_id == user_id)
                  (fun s => { s with
                    end_date := some new_end_date
                    status := "active"
                    payment_id := ud.payment_id })
                { store := st1, userData := ud, result := .endConv,
                  messages := [.renewalSuccess new_end_date] }
          else
            let st1 := create_subscription_record st freshId user_id
              (ud.selected_duration.getD "")
            { store := st1,
              userData := { ud with pending_subscription_id := some freshId },
              result := .toState .CHOOSE_COUNTRIES, messages := [.choosePackagePrompt] }
      else
        { store := st, userData := ud, result := .toState .AWAIT_PAYMENT_CONFIRMATION,
          messages := [.verificationFailedRetry] }
    else if env.status == "not_found" then
      { store := st, userData := ud, result := .toState .AWAIT_PAYMENT_CONFIRMATION,
        messages := [.paymentNotFoundRetry] }
    else
      { store := st, userData := ud, result := .noChange, messages := [] }

/-- `handle_renewal` (`main.py` lines 1213-1239): the `renew_N` callback.
Rejects when the subscription is missing or owned by another user; otherwise
records `renewing_sub_id` and enters duration choice.  It performs no
database write in any branch. -/
def handle_renewal (sub_id : Nat) (user_id : Int) (ud : UserData) (st : Store) :
    HandlerOut :=
  match get_subscription_by_id st sub_id with
  | none =>
      { store := st, userData := ud, result := .endConv,
        messages := [.notFoundOrNoPermission] }
  | some subscription =>
      if subscription.user_id != user_id then
        { store := st, userData := ud, result := .endConv,
          messages := [.notFoundOrNoPermission] }
      else
        { store := st, userData := { ud with renewing_sub_id := some sub_id },
          result := .toState .CHOOSE_DURATION, messages := [.renewDurationPrompt] }

/-! ## Generic lemma: `find?` through a row-wise table update -/

theorem find?_map_of_pred_eq {α : Type} (l : List α) (f : α → α) (p : α → Bool)
    (hp : ∀ a, p (f a) = p a) : (l.map f).find? p = (l.find? p).map f := by
  induction l with
  | nil => rfl
  | cons a t ih =>
    by_cases h : p a = true
    · simp [List.find?, hp, h]
    · simp [List.find?, hp, h, ih]

/-! ## Claim C1: renewal extends from the stored end date -/

/-- Claim C1: for every renewal whose payment is confirmed (`paid` or
`succeeded`) and verified, the renewed subscription's `end_date` after the
update equals the `end_date` stored immediately before the update plus the
selected plan's duration in days, and the handler's entire output is
independent of the wall-clock time at which it runs. -/
theorem renewal_extends_current_end (env : PaymentEnv) (user_id : Int)
    (freshId : Nat) (now : Int) (ud : UserData) (st : Store)
    (pid did : String) (plan : DurationPlan) (rsid : Nat) (sub : Subscription) (e : Int)
    (hpid : ud.payment_id = some pid) (hpidne : pid ≠ "")
    (hpt : pyTruthyStr ud.payment_type = true)
    (hst : env.status = "paid" ∨ env.status = "succeeded")
    (hv : env.verified = true)
    (hdid : ud.selected_duration = some did)
    (hplan : lookupPlan did = some plan)
    (hr : ud.renewing_sub_id = some rsid) (hr0 : rsid ≠ 0)
    (hsub : get_subscription_by_id st rsid = some sub)
    (hend : sub.end_date = some e)
    (hown : sub.user_id = user_id) :
    get_subscription_by_id (confirm_payment env user_id freshId now ud st).store rsid
      = some { sub with end_date := some (e + 86400 * (plan.duration_days : Int)),
                        status := "active", payment_id := some pid } ∧
    (∀ t : Int, confirm_payment env user_id freshId t ud st
      = confirm_payment env user_id freshId now ud st) := by
  refine ⟨?_, fun t => rfl⟩
  have hpidT : pyTruthyStr ud.payment_id = true := by
    simp [pyTruthyStr, hpid, hpidne]
  have hstT : (env.status == "paid" || env.status == "succeeded") = true := by
    rcases hst with h | h <;> simp [h]
  have hplanT : ud.selected_duration.bind lookupPlan = some plan := by
    rw [hdid]; simpa using hplan
  have hrT : pyTruthyNat ud.renewing_sub_id = true := by
    simp [pyTruthyNat, hr, hr0]
  have hgetD : ud.renewing_sub_id.getD 0 = rsid := by rw [hr]; rfl
  have hsub' : st.subscriptions.find? (fun s => s.id == rsid) = some sub := hsub
  have hidq : (sub.id == rsid) = true := by
    have hq := List.find?_some hsub'
    simpa using hq
  have hout : confirm_payment env user_id freshId now ud st
      = { store := updateSubscriptions st (fun s => s.id == rsid && s.user_id == user_id)
            (fun s => { s with
              end_date := some (e + 86400 * (plan.duration_days : Int))
              status := "active"
              payment_id := ud.payment_id })
          userData := ud
          result := .endConv
          messages := [.renewalSuccess (e + 86400 * (plan.duration_days : Int))] } := by
    simp [confirm_payment, hpidT, hpt, hstT, hv, hplanT, hrT, hgetD, hsub, hend]
  rw [hout]
  rw [get_subscription_by_id, updateSubscriptions]
  rw [find?_map_of_pred_eq _ _ _ (by
    intro a
    by_cases h : (a.id == rsid && a.user_id == user_id) = true <;> simp [h])]
  rw [hsub']
  have hid : sub.id = rsid := by simpa using hidq
  simp [hid, hown, hpid]

/-- A concrete subscription used as the C1 witness: its `end_date` is
600000, well in the past relative to the renewal-time clock used below. -/
def subW1 : Subscription :=
  { id := 2, user_id := 9, duration_plan_id := "1_month",
    country_package_id := some "standard", start_date := some 1000,
    end_date := some 600000, status := "expired", payment_id := some "old" }

def stW1 : Store := ⟨[subW1], []⟩

def udW1 : UserData :=
  { selected_duration := some "1_month", payment_id := some "inv9",
    payment_type := some "crypto", renewing_sub_id := some 2 }

/-- Witness for C1: renewing subscription 2 (old end 600000) on the 30-day
plan at wall-clock 12345678 yields end 600000 + 86400 * 30, not a value
derived from the clock. -/
theorem renewal_extends_witness :
    get_subscription_by_id
      (confirm_payment ⟨"paid", true⟩ 9 7 12345678 udW1 stW1).store 2
      = some { subW1 with end_date := some (600000 + 86400 * ((30 : Nat) : Int)),
                          status := "active", payment_id := some "inv9" } := by
  have h := renewal_extends_current_end ⟨"paid", true⟩ 9 7 12345678 udW1 stW1
    "inv9" "1_month" ⟨"Подписка на 1 месяц", 30, 2, 159⟩ 2 subW1 600000
    rfl (by decide) rfl (Or.inl rfl) rfl rfl rfl rfl (by decide) rfl rfl rfl
  exact h.1

/-! ## Claim C8: payment statuses outside the handled taxonomy -/

/-- Claim C8 (amended): in AWAIT_PAYMENT_CONFIRMATION, for every
payment-status value other than `paid`/`succeeded` and other than
`not_found` (for example `pending` or `error`), the handler silently does
nothing: it sends no message at all (no retry prompt), returns `None` so the
conversation stays in AWAIT_PAYMENT_CONFIRMATION, and changes neither the
store nor the user data. -/
theorem unrecognized_status_silent (env : PaymentEnv) (user_id : Int) (freshId : Nat)
    (now : Int) (ud : UserData) (st : Store)
    (hpid : pyTruthyStr ud.payment_id = true)
    (hpt : pyTruthyStr ud.payment_type = true)
    (h1 : env.status ≠ "paid") (h2 : env.status ≠ "succeeded")
    (h3 : env.status ≠ "not_found") :
    confirm_payment env user_id freshId now ud st
      = { store := st, userData := ud, result := .noChange, messages := [] } := by
  simp [confirm_payment, hpid, hpt, h1, h2, h3]

def udC8 : UserData :=
  { selected_duration := some "1_month", payment_id := some "inv1",
    payment_type := some "crypto" }

def stC8 : Store := ⟨[], []⟩

/-- Counterexample to C8 as stated: on status `pending` the handler sends no
retry prompt whatsoever (the claim requires a retry-able prompt). -/
theorem unrecognized_status_counterexample :
    (confirm_payment ⟨"pending", false⟩ 7 5 0 udC8 stC8).messages = [] ∧
    (confirm_payment ⟨"pending", false⟩ 7 5 0 udC8 stC8).result = .noChange ∧
    (confirm_payment ⟨"pending", false⟩ 7 5 0 udC8 stC8).store = stC8 :=
  ⟨rfl, rfl, rfl⟩

/-- Witness for the amended C8 at status `error`. -/
theorem unrecognized_status_silent_witness :
    confirm_payment ⟨"error", false⟩ 7 5 0 udC8 stC8
      = { store := stC8, userData := udC8, result := .noChange, messages := [] } :=
  unrecognized_status_silent ⟨"error", false⟩ 7 5 0 udC8 stC8
    (by decide) (by decide) (by decide) (by decide) (by decide)

/-! ## Claim C9: renewal entry guarded by ownership -/

/-- Claim C9: a `renew N` trigger by actor `U` is rejected — no store
mutation, no `renewing_sub_id` recorded, conversation ended — whenever no
subscription `N` exists or its owner is not `U`; the renewal flow
(`renewing_sub_id := N`, state CHOOSE_DURATION) is entered exactly when `U`
owns subscription `N`. -/
theorem renewal_ownership_guard (N : Nat) (U : Int) (ud : UserData) (st : Store) :
    ((∀ sub, get_subscription_by_id st N = some sub → sub.user_id ≠ U) →
      handle_renewal N U ud st
        = { store := st, userData := ud, result := .endConv,
            messages := [.notFoundOrNoPermission] }) ∧
    (∀ sub, get_subscription_by_id st N = some sub → sub.user_id = U →
      handle_renewal N U ud st
        = { store := st, userData := { ud with renewing_sub_id := some N },
            result := .toState .CHOOSE_DURATION,
            messages := [.renewDurationPrompt] }) := by
  constructor
  · intro h
    unfold handle_renewal
    cases hg : get_subscription_by_id st N with
    | none => rfl
    | some sub =>
        have hne := h sub hg
        simp [hne]
  · intro sub hg he
    unfold handle_renewal
    rw [hg]
    simp [he]

def subW9 : Subscription :=
  { id := 3, user_id := 5, duration_plan_id := "1_month",
    country_package_id := some "standard", start_date := some 0,
    end_date := some 100, status := "active", payment_id := some "p" }

def stW9 : Store := ⟨[subW9], []⟩

/-- Witness for C9: subscription 3 belongs to user 5, so a `renew_3` trigger
from user 6 is rejected with no mutation and no marker recorded. -/
theorem renewal_ownership_guard_witness :
    handle_renewal 3 6 {} stW9
      = { store := stW9, userData := {}, result := .endConv,
          messages := [.notFoundOrNoPermission] } := by
  refine (renewal_ownership_guard 3 6 {} stW9).1 ?_
  intro sub hg
  have hx : get_subscription_by_id stW9 3 = some subW9 := rfl
  rw [hx] at hg
  cases hg
  decide

/-! ## Claim C2: package selection and provisioning (`countries_chosen`) -/

/-- Outcome of the key-creation attempt for one country inside the loop of
`countries_chosen` (`main.py` lines 576-607): the Outline client was
unavailable (`get_outline_client` returned `None`, line 580), creation
returned `(None, None)` (line 603), a key was created, or an exception was
raised during this country's iteration (caught by the per-country `except`
on line 606). -/
inductive KeyOutcome
  | noClient
  | createFailed
  | created (key_id access_url : String)
  | exn
deriving DecidableEq

/-- Whether a country's outcome is a successful key creation. -/
def isCreated : KeyOutcome → Bool
  | .created _ _ => true
  | _ => false

/-- One iteration of the per-country loop in `countries_chosen`: on success
the key row is inserted and the country appended to `created_keys`; every
other outcome leaves both unchanged and the loop moves to the next country.
The `rename_outline_key` call after a successful creation returns a boolean
the source discards; it touches no store state and never raises. -/
def provisionStep (env : String → KeyOutcome) (sid : Nat)
    (acc : Store × List String) (country : String) : Store × List String :=
  match env country with
  | .created kid url =>
      (add_subscription_country acc.1 sid country kid url, acc.2 ++ [country])
  | _ => acc

/-- The `subscription_countries` rows the loop inserts for a country list. -/
def provisionRows (env : String → KeyOutcome) (sid : Nat) :
    List String → List SubscriptionCountry
  | [] => []
  | c :: cs =>
      (match env c with
       | .created kid url => [⟨sid, c, kid, url⟩]
       | _ => []) ++ provisionRows env sid cs

/-- `countries_chosen` (`main.py` lines 545-650).  After the loop, if
`created_keys` is empty the code raises, landing in the `except` handler
(fatal activation error, `END`, no activation); otherwise it activates the
subscription and clears `user_data`.  A `KeyError` on the package or plan
lookup also lands in the `except` handler before any store write. -/
def countries_chosen (env : String → KeyOutcome) (pkgId : String) (now : Int)
    (ud : UserData) (st : Store) : HandlerOut :=
  if !(pyTruthyNat ud.pending_subscription_id) || !(pyTruthyStr ud.payment_id)
      || !(pyTruthyStr ud.selected_duration) then
    { store := st, userData := ud, result := .endConv,
      messages := [.missingSubscriptionInfo] }
  else
    let sid := ud.pending_subscription_id.getD 0
    match lookupPackage pkgId, ud.selected_duration.bind lookupPlan with
    | some package, some duration_plan =>
      let st1 := update_subscription_country_package st sid pkgId
      let res := package.countries.foldl (provisionStep env sid) (st1, [])
      if res.2.isEmpty then
        { store := res.1, userData := ud, result := .endConv,
          messages := [.activationError] }
      else
        let st3 := activate_subscription res.1 sid duration_plan.duration_days
          (ud.payment_id.getD "") now
        { store := st3, userData := {}, result := .endConv,
          messages := [.subscriptionActivated] }
    | _, _ =>
      { store := st, userData := ud, result := .endConv,
        messages := [.activationError] }

theorem get_updateSubscriptions_id (st : Store) (sid : Nat) (p : Subscription → Bool)
    (f : Subscription → Subscription) (hf : ∀ s, (f s).id = s.id) :
    get_subscription_by_id (updateSubscriptions st p f) sid
      = (get_subscription_by_id st sid).map (fun s => if p s then f s else s) := by
  rw [get_subscription_by_id, updateSubscriptions, get_subscription_by_id]
  exact find?_map_of_pred_eq _ _ _ (by intro a; by_cases h : p a = true <;> simp [h, hf])

theorem provision_foldl_spec (env : String → KeyOutcome) (sid : Nat)
    (cs : List String) (acc : Store × List String) :
    ((cs.foldl (provisionStep env sid) acc).1.subscriptions = acc.1.subscriptions) ∧
    ((cs.foldl (provisionStep env sid) acc).1.subscription_countries
       = acc.1.subscription_countries ++ provisionRows env sid cs) ∧
    ((cs.foldl (provisionStep env sid) acc).2
       = acc.2 ++ cs.filter (fun c => isCreated (env c))) := by
  induction cs generalizing acc with
  | nil => simp [provisionRows]
  | cons c cs ih =>
    simp only [List.foldl_cons]
    obtain ⟨ih1, ih2, ih3⟩ := ih (provisionStep env sid acc c)
    cases h : env c <;>
      simp only [provisionStep, h, add_subscription_country] at ih1 ih2 ih3 <;>
      refine ⟨?_, ?_, ?_⟩ <;>
        simp [ih1, ih2, ih3, provisionStep, h, add_subscription_country, provisionRows,
          isCreated, List.filter_cons, List.append_assoc]

theorem provisionRows_countP (env : String → KeyOutcome) (sid : Nat) (c : String)
    (cs : List String) :
    (provisionRows env sid cs).countP
        (fun r => r.subscription_id == sid && r.country_code == c)
      = (cs.filter (fun x => isCreated (env x))).count c := by
  induction cs with
  | nil => simp [provisionRows]
  | cons x cs ih =>
      cases h : env x <;>
        simp [provisionRows, h, isCreated, List.filter_cons, List.countP_cons,
          List.count_cons, ih]

theorem provisionRows_eq_nil (env : String → KeyOutcome) (sid : Nat)
    (cs : List String) (h : cs.filter (fun x => isCreated (env x)) = []) :
    provisionRows env sid cs = [] := by
  induction cs with
  | nil => rfl
  | cons x cs ih =>
      rw [List.filter_cons] at h
      by_cases hx : isCreated (env x) = true
      · rw [if_pos hx] at h
        exact absurd h (by simp)
      · rw [if_neg hx] at h
        have hrows := ih h
        cases henv : env x
        · simp [provisionRows, henv, hrows]
        · simp [provisionRows, henv, hrows]
        · exact absurd (by simp [isCreated, henv]) hx
        · simp [provisionRows, henv, hrows]

/-- Claim C2: when a new purchase reaches package selection, each region of
the chosen package is attempted independently (success of a region is
decided solely by that region's own outcome); every succeeding region
records exactly one resource row; if at least one region succeeds the
subscription is activated, and if zero regions succeed the status remains
`pending_payment` with no resource rows added. -/
theorem package_provisioning (env : String → KeyOutcome) (pkgId : String) (now : Int)
    (ud : UserData) (st : Store) (sid : Nat) (package : CountryPackage)
    (duration_plan : DurationPlan) (sub : Subscription)
    (h1 : ud.pending_subscription_id = some sid) (h1b : sid ≠ 0)
    (h2 : pyTruthyStr ud.payment_id = true)
    (h3 : pyTruthyStr ud.selected_duration = true)
    (h4 : lookupPackage pkgId = some package)
    (h5 : ud.selected_duration.bind lookupPlan = some duration_plan)
    (h6 : get_subscription_by_id st sid = some sub)
    (h7 : sub.status = "pending_payment")
    (h8 : ∀ r ∈ st.subscription_countries, r.subscription_id ≠ sid)
    (h9 : package.countries.Nodup) :
    (∀ c ∈ package.countries,
      (c ∈ package.countries.filter (fun x => isCreated (env x))
        ↔ isCreated (env c) = true)) ∧
    (∀ c ∈ package.countries.filter (fun x => isCreated (env x)),
      (countries_chosen env pkgId now ud st).store.subscription_countries.countP
        (fun r => r.subscription_id == sid && r.country_code == c) = 1) ∧
    (package.countries.filter (fun x => isCreated (env x)) ≠ [] →
      (get_subscription_by_id (countries_chosen env pkgId now ud st).store sid).map
        Subscription.status = some "active") ∧
    (package.countries.filter (fun x => isCreated (env x)) = [] →
      (get_subscription_by_id (countries_chosen env pkgId now ud st).store sid).map
        Subscription.status = some "pending_payment" ∧
      (countries_chosen env pkgId now ud st).store.subscription_countries
        = st.subscription_countries) := by
  have hpendT : pyTruthyNat ud.pending_subscription_id = true := by
    simp [pyTruthyNat, h1, h1b]
  have hgetD : ud.pending_subscription_id.getD 0 = sid := by rw [h1]; rfl
  have hsub' : st.subscriptions.find? (fun s => s.id == sid) = some sub := h6
  have hid : sub.id = sid := by
    have hq := List.find?_some hsub'
    simpa using hq
  set st1 := update_subscription_country_package st sid pkgId with hst1def
  set res := package.countries.foldl (provisionStep env sid) (st1, []) with hresdef
  obtain ⟨hA, hB, hC⟩ := provision_foldl_spec env sid package.countries (st1, [])
  rw [← hresdef] at hA hB hC
  simp only [List.nil_append] at hC
  have hout : countries_chosen env pkgId now ud st
      = (if res.2.isEmpty then
          { store := res.1
            userData := ud
            result := .endConv
            messages := [.activationError] }
        else
          { store := activate_subscription res.1 sid duration_plan.duration_days
              (ud.payment_id.getD "") now
            userData := {}
            result := .endConv
            messages := [.subscriptionActivated] }) := by
    simp [countries_chosen, hpendT, h2, h3, hgetD, h4, h5, ← hst1def, ← hresdef]
  have hget1 : get_subscription_by_id st1 sid
      = some { sub with country_package_id := some pkgId } := by
    have hu : get_subscription_by_id st1 sid
        = (get_subscription_by_id st sid).map
            (fun s => if s.id == sid then { s with country_package_id := some pkgId }
                      else s) := by
      rw [hst1def]
      exact get_updateSubscriptions_id st sid _ _ (fun s => rfl)
    rw [hu, h6]
    simp [hid]
  have hget2 : get_subscription_by_id res.1 sid
      = some { sub with country_package_id := some pkgId } := by
    rw [get_subscription_by_id, hA]
    exact hget1
  refine ⟨?_, ?_, ?_, ?_⟩
  · intro c hc
    simp [List.mem_filter, hc]
  · intro c hc
    have hne : res.2.isEmpty = false := by
      rw [hC]
      cases hh : (package.countries.filter (fun x => isCreated (env x))).isEmpty
      · rfl
      · exact absurd (List.isEmpty_iff.mp hh ▸ hc) (List.not_mem_nil c)
    rw [hout, if_neg (by simp [hne])]
    have hsc3 : (activate_subscription res.1 sid duration_plan.duration_days
        (ud.payment_id.getD "") now).subscription_countries
        = st.subscription_countries ++ provisionRows env sid package.countries := by
      show res.1.subscription_countries = _
      rw [hB, hst1def]
      rfl
    rw [hsc3, List.countP_append]
    have hz : st.subscription_countries.countP
        (fun r => r.subscription_id == sid && r.country_code == c) = 0 := by
      refine List.countP_eq_zero.mpr ?_
      intro r hr
      simp [h8 r hr]
    rw [hz, Nat.zero_add, provisionRows_countP]
    exact List.count_eq_one_of_mem (h9.filter _) hc
  · intro hneNil
    have hne : res.2.isEmpty = false := by
      rw [hC]
      cases hh : (package.countries.filter (fun x => isCreated (env x))).isEmpty
      · rfl
      · exact absurd (List.isEmpty_iff.mp hh) hneNil
    rw [hout, if_neg (by simp [hne])]
    have hu3 : get_subscription_by_id (activate_subscription res.1 sid
          duration_plan.duration_days (ud.payment_id.getD "") now) sid
        = (get_subscription_by_id res.1 sid).map
            (fun s => if s.id == sid then { s with
              start_date := some now
              end_date := some (now + 86400 * (duration_plan.duration_days : Int))
              status := "active"
              payment_id := some (ud.payment_id.getD "") } else s) :=
      get_updateSubscriptions_id res.1 sid _ _ (fun s => rfl)
    rw [hu3, hget2]
    simp [hid]
  · intro hnil
    have hne : res.2.isEmpty = true := by rw [hC, hnil]; rfl
    rw [hout, if_pos (by simp [hne])]
    constructor
    · rw [hget2]
      simpa using h7
    · show res.1.subscription_countries = st.subscription_countries
      rw [hB, provisionRows_eq_nil env sid _ hnil, hst1def]
      simp [update_subscription_country_package, updateSubscriptions]

/-- C2 witness environment: key creation succeeds in `germany` and fails in
`amsterdam`. -/
def envW2 : String → KeyOutcome := fun c =>
  if c = "germany" then .created "key7" "ssurl7" else .createFailed

def subW2 : Subscription :=
  { id := 4, user_id := 11, duration_plan_id := "1_month",
    country_package_id := none, start_date := none, end_date := none,
    status := "pending_payment", payment_id := none }

def stW2 : Store := ⟨[subW2], []⟩

def udW2 : UserData :=
  { selected_duration := some "1_month", payment_id := some "inv4",
    payment_type := some "crypto", pending_subscription_id := some 4 }

/-- Witness for C2: with the `standard` package, region A (`germany`)
succeeding and region B (`amsterdam`) failing, the subscription activates
and exactly one resource row exists for (4, germany). -/
theorem package_provisioning_witness :
    ((get_subscription_by_id (countries_chosen envW2 "standard" 777 udW2 stW2).store 4).map
      Subscription.status = some "active") ∧
    (countries_chosen envW2 "standard" 777 udW2 stW2).store.subscription_countries.countP
      (fun r => r.subscription_id == 4 && r.country_code == "germany") = 1 := by
  have h := package_provisioning envW2 "standard" 777 udW2 stW2 4
    ⟨"Стандартный пакет", "Доступ к серверам в Германии и Амстердаме",
      ["germany", "amsterdam"]⟩
    ⟨"Подписка на 1 месяц", 30, 2, 159⟩ subW2
    rfl (by decide) rfl rfl rfl rfl rfl rfl
    (by intro r hr; exact absurd hr (List.not_mem_nil r)) (by decide)
  refine ⟨h.2.2.1 (by decide), h.2.1 "germany" (by decide)⟩

/-! ## Claim C7: starting a new flow and stale "I have paid" triggers -/

/-- `subscribe_command` (`main.py` lines 239-245) including its
`rate_limit_command("subscribe")` wrapper (lines 141-154).  When
rate-limited the wrapper returns early (`None`, no state change); otherwise
the handler sends the duration keyboard and enters CHOOSE_DURATION.  It
touches no other `user_data` key — in particular it performs no
`user_data.clear()`. -/
def subscribe_command (now : ℚ) (ud : UserData) : UserData × HandlerResult × List Msg :=
  match is_rate_limited ud.last_action_times now "command_subscribe" with
  | (true, lat2) => ({ ud with last_action_times := lat2 }, .noChange, [])
  | (false, lat2) =>
      ({ ud with last_action_times := lat2 }, .toState .CHOOSE_DURATION,
        [.chooseDurationPrompt])

/-- Dispatch of a `confirm_payment` callback against the per-state handler
table of the user conversation (`main.py` lines 1114-1132): the
`confirm_payment` handler is registered only under
AWAIT_PAYMENT_CONFIRMATION; in every other state the callback matches no
handler of the conversation and the update is ignored (no handler body
runs). -/
def stalePaidClick (pos : UserConversationState) (env : PaymentEnv) (user_id : Int)
    (freshId : Nat) (now : Int) (ud : UserData) (st : Store) : HandlerOut :=
  if pos = .AWAIT_PAYMENT_CONFIRMATION then confirm_payment env user_id freshId now ud st
  else { store := st, userData := ud, result := .noChange, messages := [] }

/-- A `user_data` state left behind by a flow that reached
AWAIT_PAYMENT_CONFIRMATION with payment reference `P1`. -/
def udC7 : UserData :=
  { selected_duration := some "1_month", payment_id := some "P1",
    payment_type := some "crypto" }

/-- Counterexample to C7 as stated: `/subscribe` starts a new flow (enters
CHOOSE_DURATION) yet the stale payment reference `P1` is NOT discarded —
it is still present in the actor's stored data afterwards. -/
theorem new_flow_no_clear_counterexample :
    (subscribe_command 100 udC7).2.1 = HandlerResult.toState .CHOOSE_DURATION ∧
    (subscribe_command 100 udC7).1.payment_id = some "P1" := by
  have hI : intervalFor "command_subscribe" = 10 := rfl
  have hlim : is_rate_limited [] 100 "command_subscribe"
      = (false, alistSet [] "command_subscribe" 100) := by
    simp only [is_rate_limited, hI, alistLookup, List.find?, Option.map_none,
      Option.getD_none]
    norm_num
  constructor <;> simp [subscribe_command, hlim, udC7]

/-- Claim C7 (amended): starting a new subscription flow resets the
conversation position to CHOOSE_DURATION but does not clear the actor's
stored data — the stale payment reference survives until the new flow
overwrites it at the payment-method step; nevertheless a late "I have paid"
trigger, arriving while the conversation is in any state other than
AWAIT_PAYMENT_CONFIRMATION, matches no handler: it mutates no subscription
row and sends nothing. -/
theorem new_flow_supersession (now : ℚ) (ud : UserData) (pid : String)
    (hpid : ud.payment_id = some pid)
    (hallow : intervalFor "command_subscribe"
      ≤ now - (alistLookup ud.last_action_times "command_subscribe").getD 0) :
    (subscribe_command now ud).2.1 = HandlerResult.toState .CHOOSE_DURATION ∧
    (subscribe_command now ud).1.payment_id = some pid ∧
    (∀ (env : PaymentEnv) (u : Int) (fid : Nat) (t : Int) (st : Store)
        (pos : UserConversationState),
      pos ≠ .AWAIT_PAYMENT_CONFIRMATION →
      stalePaidClick pos env u fid t (subscribe_command now ud).1 st
        = { store := st, userData := (subscribe_command now ud).1,
            result := .noChange, messages := [] }) := by
  have hns : ¬ (now - (alistLookup ud.last_action_times "command_subscribe").getD 0
      < intervalFor "command_subscribe") := not_lt.mpr hallow
  have hlim : is_rate_limited ud.last_action_times now "command_subscribe"
      = (false, alistSet ud.last_action_times "command_subscribe" now) := by
    simp [is_rate_limited, hns]
  refine ⟨?_, ?_, ?_⟩
  · simp [subscribe_command, hlim]
  · simp [subscribe_command, hlim, hpid]
  · intro env u fid t st pos hpos
    simp [stalePaidClick, hpos]

def stW7 : Store := ⟨[], []⟩

/-- Witness for the amended C7: concrete new flow at time 100 retains the
stale reference `P1`, and a stale `confirm_payment` click while in
CHOOSE_DURATION leaves the (empty) store untouched with no messages. -/
theorem new_flow_supersession_witness :
    (subscribe_command 100 udC7).1.payment_id = some "P1" ∧
    stalePaidClick .CHOOSE_DURATION ⟨"paid", true⟩ 7 9 0 (subscribe_command 100 udC7).1 stW7
      = { store := stW7, userData := (subscribe_command 100 udC7).1,
          result := .noChange, messages := [] } := by
  have h := new_flow_supersession 100 udC7 "P1" rfl
    (by
      rw [show intervalFor "command_subscribe" = 10 from rfl,
        show udC7.last_action_times = [] from rfl]
      simp [alistLookup, List.find?]
      norm_num)
  exact ⟨h.2.1, h.2.2 ⟨"paid", true⟩ 7 9 0 stW7 .CHOOSE_DURATION (by decide)⟩

/-! ## Scheduler (`src/scheduler_tasks.py`, `src/outline_utils.py`) -/

/-- Outcome of one key-deletion attempt in one country:
`get_outline_client` returned `None`; `delete_outline_key` returned a
boolean (`outline_utils.py` lines 53-62 — it catches its own exceptions and
returns `False`); or the iteration itself raised (e.g. `get_outline_client`
raising `ValueError`), caught by the per-key `except`. -/
inductive DeleteOutcome
  | noClient
  | ok (deleted : Bool)
  | exn
deriving DecidableEq

/-- The `data` of the deferred deletion job (`scheduler_tasks.py` lines
59-63): `key_ids` and `countries` are the `GROUP_CONCAT` strings of the
subscription's rows at scan time (`None` when there are no rows). -/
structure JobData where
  sub_id : Nat
  user_id : Int
  key_ids : Option String
  countries : Option String
deriving DecidableEq

/-- `x.split(',') if x else []` (`scheduler_tasks.py` lines 97-98). -/
def pySplitIfTruthy : Option String → List String
  | none => []
  | some s => if s = "" then [] else pySplitComma s

/-- The stored text of a timestamp column as fetched back from the database
(modelled as the decimal rendering of the integer timestamp).  The only
property used of it: it is the text of a timestamp, never the literal
`"active"`. -/
def timestampText (e : Int) : String := toString e

/-- The guard `if subscription and subscription[5] == 'active'` at
`scheduler_tasks.py` line 102.  Tuple index 5 of the row returned by
`get_subscription_by_id` (`database.py` line 288) is `end_date` — `status`
is index 6 — so the comparison is between an `end_date` value (or `None`,
which compares unequal to any string) and the string `'active'`. -/
def renewalCheckPasses (st : Store) (sid : Nat) : Bool :=
  match get_subscription_by_id st sid with
  | none => false
  | some sub =>
      match sub.end_date with
      | none => false
      | some e => timestampText e == "active"

/-- `deleted_count` accumulated by the loop of `delete_expired_keys`
(`scheduler_tasks.py` lines 110-124): iterate `countries` with index `i`;
attempt deletion only when `i < len(key_ids)` and `key_ids[i]` is truthy;
count the attempts for which `delete_outline_key` returned `True`. -/
def deleteLoopCount (env : String → String → DeleteOutcome)
    (key_ids countries : List String) : Nat :=
  (countries.enum).foldl
    (fun acc p =>
      if p.1 < key_ids.length ∧ key_ids.getD p.1 "" ≠ "" then
        match env p.2 (key_ids.getD p.1 "") with
        | .ok true => acc + 1
        | _ => acc
      else acc) 0

/-- Observable outcome of `delete_expired_keys`: resulting store, message
sent to the owner, and the `deleted_count`/`total_keys` counters (in the
early-return branch nothing is sent or counted). -/
structure SchedulerOut where
  store : Store
  messages : List Msg
  deleted_count : Nat
  total_keys : Nat
deriving DecidableEq

/-- `delete_expired_keys` (`scheduler_tasks.py` lines 92-140): split the
job's key/country strings; early-return when the (mis-indexed) renewal
guard fires; otherwise run the deletion loop, unconditionally mark the
subscription `expired`, and send the final outcome notice
(`deleted == total` → all-deactivated text, `deleted > 0` → partial text,
else generic expired text). -/
def delete_expired_keys (env : String → String → DeleteOutcome) (jd : JobData)
    (st : Store) : SchedulerOut :=
  let key_ids := pySplitIfTruthy jd.key_ids
  let countries := pySplitIfTruthy jd.countries
  if renewalCheckPasses st jd.sub_id then
    { store := st, messages := [], deleted_count := 0, total_keys := key_ids.length }
  else
    let deleted_count := deleteLoopCount env key_ids countries
    let total_keys := key_ids.length
    let st2 := mark_subscription_expired st jd.sub_id
    let msg :=
      if deleted_count = total_keys then Msg.finalAllDeleted
      else if 0 < deleted_count then Msg.finalPartialDeleted deleted_count total_keys
      else Msg.finalExpiredNone
    { store := st2, messages := [msg], deleted_count := deleted_count,
      total_keys := total_keys }

theorem deleteLoopCount_eq_zero (env : String → String → DeleteOutcome)
    (hgone : ∀ c k, env c k ≠ .ok true) (key_ids countries : List String) :
    deleteLoopCount env key_ids countries = 0 := by
  suffices h : ∀ (l : List (Nat × String)) (n : Nat),
      l.foldl (fun acc p =>
        if p.1 < key_ids.length ∧ key_ids.getD p.1 "" ≠ "" then
          match env p.2 (key_ids.getD p.1 "") with
          | .ok true => acc + 1
          | _ => acc
        else acc) n = n by
    rw [deleteLoopCount]
    exact h _ 0
  intro l
  induction l with
  | nil => intro n; rfl
  | cons p l ih =>
      intro n
      rw [List.foldl_cons]
      by_cases hp : p.1 < key_ids.length ∧ key_ids.getD p.1 "" ≠ ""
      · rw [if_pos hp]
        cases henv : env p.2 (key_ids.getD p.1 "") with
        | ok b =>
            cases b
            · exact ih n
            · exact absurd henv (hgone _ _)
        | noClient => exact ih n
        | exn => exact ih n
      · rw [if_neg hp]
        exact ih n

/-! ## Claim C3: de-provisioning a second time -/

def subC3 : Subscription :=
  { id := 6, user_id := 21, duration_plan_id := "1_month",
    country_package_id := some "standard", start_date := some 0,
    end_date := some 2592000, status := "expired", payment_id := some "p6" }

/-- Post-first-run state: the subscription row is already `expired`, its
resource row is still recorded (the routine never deletes rows), and the
backing credential is gone. -/
def stC3 : Store := ⟨[subC3], [⟨6, "germany", "k1", "u1"⟩]⟩

def jdC3 : JobData := ⟨6, 21, some "k1", some "germany"⟩

/-- The provisioner when the credential is already deleted: the delete call
reports failure (the Outline server answers 404 for a missing key and the
client returns `False`). -/
def envGone : String → String → DeleteOutcome := fun _ _ => .ok false

/-- Counterexample to C3 as stated: running de-provisioning a second time
after the only credential was already deleted reports `(0, 1)`, not
`(total_count, total_count) = (1, 1)` — the code counts only delete calls
that returned `True` and has no "trivially successful" rule for resources
with no remaining backing credential. -/
theorem deprovision_second_run_counterexample :
    ((delete_expired_keys envGone jdC3 stC3).deleted_count,
      (delete_expired_keys envGone jdC3 stC3).total_keys) = (0, 1) ∧
    ((delete_expired_keys envGone jdC3 stC3).deleted_count,
      (delete_expired_keys envGone jdC3 stC3).total_keys) ≠ (1, 1) := by
  constructor <;> decide

/-- Claim C3 (amended): a second run of the de-provisioning job does not
error (every per-key failure is absorbed), but when nothing is left to
delete — every delete attempt reports failure — it reports
`(0, total_count)` rather than `(total_count, total_count)`; its only store
change is re-marking the subscription `expired`. -/
theorem deprovision_second_run (env : String → String → DeleteOutcome)
    (jd : JobData) (st : Store)
    (hgone : ∀ c k, env c k ≠ .ok true)
    (hguard : renewalCheckPasses st jd.sub_id = false) :
    (delete_expired_keys env jd st).deleted_count = 0 ∧
    (delete_expired_keys env jd st).total_keys
      = (pySplitIfTruthy jd.key_ids).length ∧
    (delete_expired_keys env jd st).store = mark_subscription_expired st jd.sub_id := by
  have hz := deleteLoopCount_eq_zero env hgone (pySplitIfTruthy jd.key_ids)
    (pySplitIfTruthy jd.countries)
  refine ⟨?_, ?_, ?_⟩ <;> simp [delete_expired_keys, hguard, hz]

/-- Witness for the amended C3 at the concrete already-cleared state. -/
theorem deprovision_second_run_witness :
    (delete_expired_keys envGone jdC3 stC3).deleted_count = 0 ∧
    (delete_expired_keys envGone jdC3 stC3).total_keys = 1 ∧
    (delete_expired_keys envGone jdC3 stC3).store
      = mark_subscription_expired stC3 6 := by
  have h := deprovision_second_run envGone jdC3 stC3
    (by intro c k; simp [envGone]) (by decide)
  exact ⟨h.1, by rw [h.2.1]; decide, h.2.2⟩

/-! ## Claim C10: unconditional expiry marking after the deletion loop -/

/-- Claim C10: when the deferred job runs for a subscription that was not
renewed (the guard does not fire), it marks the subscription `expired`
unconditionally after the deletion loop — also when zero deletions
succeed — and it never removes the resource rows, so credentials whose
deletion failed stay recorded (still live on the servers) while the row is
already in the terminal `expired` status. -/
theorem deferred_job_marks_expired_unconditionally
    (env : String → String → DeleteOutcome) (jd : JobData) (st : Store)
    (sub : Subscription)
    (hguard : renewalCheckPasses st jd.sub_id = false)
    (hsub : get_subscription_by_id st jd.sub_id = some sub) :
    get_subscription_by_id (delete_expired_keys env jd st).store jd.sub_id
      = some { sub with status := "expired" } ∧
    (delete_expired_keys env jd st).store.subscription_countries
      = st.subscription_countries ∧
    ((∀ c k, env c k ≠ .ok true) →
      (delete_expired_keys env jd st).deleted_count = 0) := by
  have hsub' : st.subscriptions.find? (fun s => s.id == jd.sub_id) = some sub := hsub
  have hid : sub.id = jd.sub_id := by
    have hq := List.find?_some hsub'
    simpa using hq
  have hstore : (delete_expired_keys env jd st).store
      = mark_subscription_expired st jd.sub_id := by
    simp [delete_expired_keys, hguard]
  refine ⟨?_, ?_, ?_⟩
  · rw [hstore]
    have hu : get_subscription_by_id (mark_subscription_expired st jd.sub_id) jd.sub_id
        = (get_subscription_by_id st jd.sub_id).map
            (fun s => if s.id == jd.sub_id then { s with status := "expired" } else s) :=
      get_updateSubscriptions_id st jd.sub_id _ _ (fun s => rfl)
    rw [hu, hsub]
    simp [hid]
  · rw [hstore]
    simp [mark_subscription_expired, updateSubscriptions]
  · intro hgone
    have hz := deleteLoopCount_eq_zero env hgone (pySplitIfTruthy jd.key_ids)
      (pySplitIfTruthy jd.countries)
    simp [delete_expired_keys, hguard, hz]

def subC10 : Subscription :=
  { id := 8, user_id := 30, duration_plan_id := "1_month",
    country_package_id := some "standard", start_date := some 0,
    end_date := some 500, status := "active", payment_id := some "p8" }

def stC10 : Store := ⟨[subC10], [⟨8, "germany", "k9", "u9"⟩]⟩

def jdC10 : JobData := ⟨8, 30, some "k9", some "germany"⟩

/-- A provisioner where every deletion attempt raises. -/
def envFailAll : String → String → DeleteOutcome := fun _ _ => .exn

/-- Witness for C10: an unrenewed subscription whose only key-deletion
attempt raises is still marked `expired`, with zero keys deleted. -/
theorem deferred_job_marks_expired_witness :
    get_subscription_by_id (delete_expired_keys envFailAll jdC10 stC10).store 8
      = some { subC10 with status := "expired" } ∧
    (delete_expired_keys envFailAll jdC10 stC10).deleted_count = 0 := by
  have h := deferred_job_marks_expired_unconditionally envFailAll jdC10 stC10 subC10
    (by decide) rfl
  exact ⟨h.1, h.2.2 (by intro c k; simp [envFailAll])⟩

/-! ## Claim C5: the renewal re-check of the deferred job -/

def subC5 : Subscription :=
  { id := 9, user_id := 40, duration_plan_id := "1_month",
    country_package_id := some "standard", start_date := some 0,
    end_date := some 5184000, status := "active", payment_id := some "pR" }

/-- The state at firing time after a renewal during the grace period: the
subscription is `active` again, its key row intact. -/
def stC5 : Store := ⟨[subC5], [⟨9, "germany", "k5", "u5"⟩]⟩

def jdC5 : JobData := ⟨9, 40, some "k5", some "germany"⟩

/-- A provisioner where every deletion attempt succeeds. -/
def envOk : String → String → DeleteOutcome := fun _ _ => .ok true

/-- Claim C5 failing input, evaluated: subscription 9 was renewed (status
`active` at firing time) yet the deferred job does not skip — the guard
compares the row's `end_date` (tuple index 5), not its `status` (index 6),
against `'active'` — so the renewed subscription's key is deleted and its
status is overwritten with `expired`. -/
theorem renewed_subscription_still_deprovisioned :
    subC5.status = "active" ∧
    renewalCheckPasses stC5 9 = false ∧
    (delete_expired_keys envOk jdC5 stC5).deleted_count = 1 ∧
    get_subscription_by_id (delete_expired_keys envOk jdC5 stC5).store 9
      = some { subC5 with status := "expired" } := by
  refine ⟨rfl, by decide, by decide, by decide⟩

/-! ## Claim C6: renewal-reminder de-duplication across scan passes -/

/-- The scheduler job's `context` attribute value.  The repeating job is
scheduled with no context object (`main.py` line 1104), so it starts as
`None`; the source never assigns a fresh dictionary to it.  Modelled as an
optional insertion-ordered dictionary from string keys (the code uses only
`'reminded_subs'`) to lists of subscription ids. -/
def JobCtx : Type := Option (List (String × List Nat))

instance : DecidableEq JobCtx := by
  unfold JobCtx
  infer_instance

/-- Python truthiness of the job context (`None` and the empty dict are
falsy). -/
def pyTruthyCtx : JobCtx → Bool
  | none => false
  | some [] => false
  | some (_ :: _) => true

/-- Python `d[k].append(v)` for a key already present. -/
def ctxAppend (d : List (String × List Nat)) (k : String) (v : Nat) :
    List (String × List Nat) :=
  d.map (fun p => if p.1 == k then (p.1, p.2 ++ [v]) else p)

/-- The reminder branch body (`scheduler_tasks.py` lines 73-90) for one
subscription.  `if not context.job.context or sub_id not in
context.job.context.get('reminded_subs', [])` decides whether to send (the
`or` short-circuits, so `.get` is never evaluated on a falsy context).
After sending, `if 'reminded_subs' not in context.job.context` raises
`TypeError` when the context is `None`; the enclosing `except` swallows it
— the reminder was already sent, and the context stays `None`, so nothing
is ever recorded.  Returns (reminder sent?, context afterwards). -/
def reminderStep (jobCtx : JobCtx) (sub_id : Nat) : Bool × JobCtx :=
  let send :=
    !(pyTruthyCtx jobCtx) ||
      (match jobCtx with
       | none => true
       | some d => !((alistLookup d "reminded_subs").getD []).contains sub_id)
  if send then
    match jobCtx with
    | none => (true, none)
    | some d =>
        let d1 := if (alistLookup d "reminded_subs").isSome then d
                  else d ++ [("reminded_subs", [])]
        (true, some (ctxAppend d1 "reminded_subs" sub_id))
  else (false, jobCtx)

/-- Accumulated effects of one scan pass: job context, messages sent, and
deferred deletion jobs queued. -/
structure ScanState where
  jobCtx : JobCtx
  messages : List Msg
  scheduled : List JobData
deriving DecidableEq

/-- `GROUP_CONCAT` of a column over the joined rows: `NULL` when there is
no row. -/
def groupConcat : List String → Option String
  | [] => none
  | l => some (String.intercalate "," l)

/-- Processing of one `active` subscription row inside the scan loop of
`check_expired_subscriptions` (`scheduler_tasks.py` lines 19-90).
`end_date <= now` re-fetches the row (skipping if gone), sends the expiry
notice and schedules the deferred deletion job with the GROUP_CONCAT
key/country strings; otherwise, when `0 <= (end_date - now).days <= 3`
(`timedelta.days` is floor division by 86400 seconds), the reminder branch
runs.  An `active` row always carries an `end_date` (both activation and
renewal set it); a row without one is skipped here. -/
def scanOne (now : Int) (st : Store) (acc : ScanState) (sub : Subscription) :
    ScanState :=
  let rows := st.subscription_countries.filter (fun r => r.subscription_id == sub.id)
  match sub.end_date with
  | none => acc
  | some e =>
    if e ≤ now then
      match get_subscription_by_id st sub.id with
      | none => acc
      | some _ =>
          { acc with
            messages := acc.messages ++ [.expiryNoticeWithOptions sub.id]
            scheduled := acc.scheduled ++
              [⟨sub.id, sub.user_id, groupConcat (rows.map (fun r => r.outline_key_id)),
                groupConcat (rows.map (fun r => r.country_code))⟩] }
    else if Int.fdiv (e - now) 86400 ≤ 3 ∧ 0 ≤ Int.fdiv (e - now) 86400 then
      match reminderStep acc.jobCtx sub.id with
      | (sent, ctx2) =>
          { acc with
            jobCtx := ctx2
            messages := acc.messages ++
              (if sent then [.renewalReminder sub.id] else []) }
    else acc

/-- One pass of `check_expired_subscriptions` (`scheduler_tasks.py` lines
8-90): the query returns the rows with status `'active'` (`database.py`
lines 221-236) and the loop processes them in order, threading the job
context. -/
def check_expired_subscriptions (now : Int) (st : Store) (ctx0 : JobCtx) : ScanState :=
  (st.subscriptions.filter (fun s => s.status == "active")).foldl
    (scanOne now st) { jobCtx := ctx0, messages := [], scheduled := [] }

def subC6 : Subscription :=
  { id := 12, user_id := 50, duration_plan_id := "1_month",
    country_package_id := some "standard", start_date := some 0,
    end_date := some 100000, status := "active", payment_id := some "pp" }

def stC6 : Store := ⟨[subC6], [⟨12, "germany", "kk", "uu"⟩]⟩

/-- Claim C6 failing input, evaluated: with the job context starting as
`None` (how the repeating job is scheduled), a subscription about one day
from expiry receives a renewal reminder on EVERY scan pass — the
de-duplication record is never written, because appending to the `None`
context raises and is swallowed — so two consecutive passes send two
reminders for the same subscription within one process lifetime. -/
theorem reminder_sent_every_pass :
    (check_expired_subscriptions 10000 stC6 none).messages = [.renewalReminder 12] ∧
    (check_expired_subscriptions 10000 stC6 none).jobCtx = none ∧
    (check_expired_subscriptions 10060 stC6
        (check_expired_subscriptions 10000 stC6 none).jobCtx).messages
      = [.renewalReminder 12] := by
  refine ⟨by decide, by decide, by decide⟩

end SolVPN
